import Mathlib

/-!
Verification of the request-caching / URL-resolution core of `kattis.py`
and `response_cache.py` (the kattis-util repository), via a shallow
embedding into Lean.

Modelling conventions:
* Python exceptions become an explicit `PyError` value returned through
  `Except`; raising propagates, state survives the raise (the Python
  objects still exist after an exception), so stateful operations return
  `Except PyError α × State`.
* `requests.Request` defines neither `__eq__` nor `__hash__`, so when the
  code uses `Request` objects as `dict` keys, key equality is Python
  *object identity*.  A request object is therefore modelled as its
  structural fields paired with an allocation id (`ReqObj`); the cache
  dict is keyed by that id.  Fresh ids are threaded through the session
  state (`nextId`).
* The HTTP transport (`requests.session().send(...)` /
  `Session().send(...)`) is an external collaborator, modelled as a
  function from the request's fields and the index of the network call to
  either a transport error or a response.  Each `Response` carries an
  allocation id so that distinct network calls yield distinct response
  objects, mirroring Python object identity of responses.
* `ConfigParser` data is modelled as an association list from
  (section, option) to value, with earlier entries shadowing later ones
  (so prepending overrides, like a later `read`).
-/

/-- Fields of a `requests.Request` as constructed by `kattis.py`:
method, url, headers, body data, query params, cookies. -/
structure ReqFields where
  method : String
  url : String
  headers : List (String × String)
  data : List (String × String)
  params : List (String × String)
  cookies : List (String × String)
deriving DecidableEq, Repr

/-- A Python `Request` object: structural fields plus the object's
identity (allocation id).  `requests.Request` has no value-based
`__eq__`/`__hash__`, so dict-key equality is identity of `id`. -/
structure ReqObj where
  id : Nat
  fields : ReqFields
deriving DecidableEq, Repr

/-- A Python `Response` object: allocation id (object identity), HTTP
status code, and cookies.  The transport allocates a fresh id per call. -/
structure Resp where
  id : Nat
  status : Nat
  cookies : List (String × String)
deriving DecidableEq, Repr

/-- An error raised by the transport collaborator (DNS failure,
connection refused, ...). -/
structure TransportError where
  msg : String
deriving DecidableEq, Repr

/-- Python exceptions observable in this code. -/
inductive PyError where
  /-- plain `Exception(msg)` as raised by `Kattis.login` -/
  | exception (msg : String)
  /-- `kattis_cli.submit.ConfigError(msg)` -/
  | configError (msg : String)
  /-- `configparser.NoSectionError` from `ConfigParser.set`/`get` -/
  | noSectionError (sect : String)
  /-- `configparser.NoOptionError` from `ConfigParser.get` -/
  | noOptionError (sect opt : String)
  /-- `TypeError()` as raised by the entity `__lt__` methods -/
  | typeError
  /-- `KeyError` from a dict subscript (never actually reached here) -/
  | keyError
  /-- an error propagated unchanged from the transport collaborator -/
  | transport (e : TransportError)
deriving DecidableEq, Repr

/-- The transport collaborator: given the request's fields and the index
of this network call (used as the fresh response object's id), returns a
response or raises a transport error.  `requests.session()` is defined in
the requests library as `return Session()`, so both `kattis.py`'s
`requests.session().send(req.prepare())` and `response_cache.py`'s
`Session().send(req.prepare())` invoke this same collaborator. -/
def Transport : Type := ReqFields → Nat → Except TransportError Resp

/-! ### Python dict keyed by Request object identity -/

/-- Lookup in a dict keyed by object id. -/
def dictLookup : List (Nat × Resp) → Nat → Option Resp
  | [], _ => none
  | (k, v) :: rest, k' => if k = k' then some v else dictLookup rest k'

/-- `req in self.cache` (dict membership by key identity). -/
def dictMem (d : List (Nat × Resp)) (k : Nat) : Bool :=
  (dictLookup d k).isSome

/-- `self.cache[req] = resp`: overwrite in place if the key is present,
else append (Python dicts preserve insertion order). -/
def dictInsert : List (Nat × Resp) → Nat → Resp → List (Nat × Resp)
  | [], k, v => [(k, v)]
  | (k', v') :: rest, k, v =>
      if k' = k then (k, v) :: rest else (k', v') :: dictInsert rest k v

/-- `self.cache.pop(req, None)`: remove the entry if present, no-op
otherwise. -/
def dictPop : List (Nat × Resp) → Nat → List (Nat × Resp)
  | [], _ => []
  | (k', v') :: rest, k =>
      if k' = k then rest else (k', v') :: dictPop rest k

/-- `return self.cache[req]`: a dict subscript raises `KeyError` when the
key is absent (unreachable on the paths below, but modelled). -/
def dictSubscript (d : List (Nat × Resp)) (k : Nat) : Except PyError Resp :=
  match dictLookup d k with
  | some v => Except.ok v
  | none => Except.error PyError.keyError

/-! ### RequestCache (kattis.py lines 22-35) -/

/-- State of a `RequestCache`: the dict `self.cache`, plus an
instrumentation counter of how many network calls the transport has
received (also used to allocate fresh response ids). -/
structure RCState where
  cache : List (Nat × Resp)
  calls : Nat
deriving DecidableEq, Repr

/-- A freshly constructed `RequestCache()`. -/
def RCState.init : RCState := { cache := [], calls := 0 }

namespace RequestCache

/-- `__contains__`: `req in self.cache`. -/
def contains (s : RCState) (req : ReqObj) : Bool :=
  dictMem s.cache req.id

/-- `invalidate`: `self.cache.pop(req, None)`. -/
def invalidate (s : RCState) (req : ReqObj) : RCState :=
  { s with cache := dictPop s.cache req.id }

/-- `send(req, use_cached)`:
```
if not use_cached or req not in self:
    self.cache[req] = requests.session().send(req.prepare())
return self.cache[req]
```
A transport error aborts before the assignment, leaving the dict
unchanged. -/
def send (tr : Transport) (s : RCState) (req : ReqObj) (use_cached : Bool) :
    Except PyError Resp × RCState :=
  if use_cached = false ∨ dictMem s.cache req.id = false then
    match tr req.fields s.calls with
    | Except.error e =>
        (Except.error (PyError.transport e), { s with calls := s.calls + 1 })
    | Except.ok resp =>
        let s' : RCState :=
          { cache := dictInsert s.cache req.id resp, calls := s.calls + 1 }
        (dictSubscript s'.cache req.id, s')
  else
    (dictSubscript s.cache req.id, s)

end RequestCache

/-! ### ResponseCache (response_cache.py lines 4-17) -/

namespace ResponseCache

/-- `__contains__`: `req in self.cache`. -/
def contains (s : RCState) (req : ReqObj) : Bool :=
  dictMem s.cache req.id

/-- `invalidate`: `self.cache.pop(req, None)`. -/
def invalidate (s : RCState) (req : ReqObj) : RCState :=
  { s with cache := dictPop s.cache req.id }

/-- `send(req, use_cached)`:
```
if not use_cached or req not in self:
    self.cache[req] = Session().send(req.prepare())
return self.cache[req]
```
`Session()` here is the same transport collaborator: the requests
library defines `requests.session()` as `return Session()`. -/
def send (tr : Transport) (s : RCState) (req : ReqObj) (use_cached : Bool) :
    Except PyError Resp × RCState :=
  if use_cached = false ∨ dictMem s.cache req.id = false then
    match tr req.fields s.calls with
    | Except.error e =>
        (Except.error (PyError.transport e), { s with calls := s.calls + 1 })
    | Except.ok resp =>
        let s' : RCState :=
          { cache := dictInsert s.cache req.id resp, calls := s.calls + 1 }
        (dictSubscript s'.cache req.id, s')
  else
    (dictSubscript s.cache req.id, s)

end ResponseCache

/-! ### Operation sequences over a cache (for behavioural equivalence) -/

/-- One call against a cache object. -/
inductive CacheOp where
  | contains (req : ReqObj)
  | invalidate (req : ReqObj)
  | send (req : ReqObj) (use_cached : Bool)
deriving DecidableEq, Repr

deriving instance DecidableEq for Except

/-- The observable result of one cache call. -/
inductive OpResult where
  | bool (b : Bool)
  | unit
  | resp (r : Except PyError Resp)
deriving DecidableEq, Repr

/-- Run a sequence of operations against a `RequestCache`. -/
def runRequestCache (tr : Transport) : List CacheOp → RCState → List OpResult × RCState
  | [], s => ([], s)
  | op :: ops, s =>
      let (r, s') :=
        match op with
        | CacheOp.contains req => (OpResult.bool (RequestCache.contains s req), s)
        | CacheOp.invalidate req => (OpResult.unit, RequestCache.invalidate s req)
        | CacheOp.send req uc =>
            let (r, s') := RequestCache.send tr s req uc
            (OpResult.resp r, s')
      let (rs, s'') := runRequestCache tr ops s'
      (r :: rs, s'')

/-- Run a sequence of operations against a `ResponseCache`. -/
def runResponseCache (tr : Transport) : List CacheOp → RCState → List OpResult × RCState
  | [], s => ([], s)
  | op :: ops, s =>
      let (r, s') :=
        match op with
        | CacheOp.contains req => (OpResult.bool (ResponseCache.contains s req), s)
        | CacheOp.invalidate req => (OpResult.unit, ResponseCache.invalidate s req)
        | CacheOp.send req uc =>
            let (r, s') := ResponseCache.send tr s req uc
            (OpResult.resp r, s')
      let (rs, s'') := runResponseCache tr ops s'
      (r :: rs, s'')

/-! ### Configuration (ConfigParser) model -/

/-- Loaded `ConfigParser` data: association list from (section, option)
to value; the first matching entry wins, so prepending overrides. -/
abbrev Cfg : Type := List ((String × String) × String)

/-- Assoc-list lookup for a (section, option) pair. -/
def cfgLookup : Cfg → String → String → Option String
  | [], _, _ => none
  | ((sec, opt), v) :: rest, sect, o =>
      if sec = sect ∧ opt = o then some v else cfgLookup rest sect o

/-- `ConfigParser.has_option(section, option)`. -/
def cfgHasOption (c : Cfg) (sect opt : String) : Bool :=
  (cfgLookup c sect opt).isSome

/-- Whether a section exists (holds at least one option in this model). -/
def cfgHasSection (c : Cfg) (sect : String) : Bool :=
  c.any (fun e => e.1.1 = sect)

/-- `ConfigParser.get(section, option)`: raises `NoSectionError` /
`NoOptionError` when absent. -/
def cfgGet (c : Cfg) (sect opt : String) : Except PyError String :=
  match cfgLookup c sect opt with
  | some v => Except.ok v
  | none =>
      if cfgHasSection c sect then Except.error (PyError.noOptionError sect opt)
      else Except.error (PyError.noSectionError sect)

/-- `ConfigParser.set(section, option, value)`: overrides the option in an
existing section, raises `NoSectionError` when the section is absent. -/
def cfgSet (c : Cfg) (sect opt v : String) : Except PyError Cfg :=
  if cfgHasSection c sect then Except.ok (((sect, opt), v) :: c)
  else Except.error (PyError.noSectionError sect)

/-- Merging one successfully read file's entries into the parser: each
entry of the file overrides what was there (later reads win). -/
def cfgMergeFile (c : Cfg) (file : Cfg) : Cfg :=
  file.foldl (fun acc e => (e.1, e.2) :: acc) c

/-- `Kattis._read_config` (kattis.py lines 157-170):
```
cfg = ConfigParser()
if Kattis.DEFAULT_CONFIG.is_file():
    cfg.read(Kattis.DEFAULT_CONFIG)
if not cfg.read(paths):
    raise cli.ConfigError()
if not cfg.has_option('kattis', 'hostname'):
    cfg.set('kattis', 'hostname', 'open.kattis.com')
return cfg
```
The filesystem is abstracted as the read results themselves:
`defaultFile` is `some content` when the system-wide default
`/usr/local/etc/kattisrc` is a readable file, and `userFiles` holds one
entry per user-supplied path, `some content` iff that path was
successfully read.  `ConfigParser.read(paths)` returns the list of paths
actually read, so its falsiness check is `readable.isEmpty`. -/
def readConfig (defaultFile : Option Cfg) (userFiles : List (Option Cfg)) :
    Except PyError Cfg :=
  let cfg0 : Cfg :=
    match defaultFile with
    | some content => cfgMergeFile [] content
    | none => []
  let readable := userFiles.filterMap id
  let cfg1 := readable.foldl cfgMergeFile cfg0
  if readable.isEmpty then Except.error (PyError.configError "")
  else if cfgHasOption cfg1 "kattis" "hostname" then Except.ok cfg1
  else cfgSet cfg1 "kattis" "hostname" "open.kattis.com"

/-! ### Kattis session facade -/

/-- Python `str(x)` on an optional string (f-string interpolation turns
`None` into `"None"`). -/
def pyStr : Option String → String
  | none => "None"
  | some s => s

/-- `Kattis.HEADERS` (kattis.py line 142). -/
def Kattis.HEADERS : List (String × String) := [("User-Agent", "kattis-cli-submit")]

/-- State of one `Kattis` object: its (lazily created, initially empty)
`RequestCache`, and the allocation counter for fresh `Request` object
ids. -/
structure KState where
  rc : RCState
  nextId : Nat
deriving DecidableEq, Repr

/-- A freshly constructed `Kattis` session. -/
def KState.init : KState := { rc := RCState.init, nextId := 0 }

namespace Kattis

/-- `get_cfg(option, default=None, section='kattis')`:
```
if self.config.has_option(section, option):
    return self.config.get(section, option)
else:
    return default
```
(after `has_option` the `get` cannot raise, so the result is total). -/
def get_cfg (cfg : Cfg) (opt : String) (dflt : Option String) (sect : String) :
    Option String :=
  if cfgHasOption cfg sect opt then cfgLookup cfg sect opt else dflt

/-- `get_url(option, default, section='kattis', hostname=None)`:
```
if hostname is None:
    hostname = self.config.get(section, 'hostname')
return self.get_cfg(option, f'https://{hostname}/{default}', section)
```
The `config.get` raises when the section has no hostname. -/
def get_url (cfg : Cfg) (opt dflt sect : String) (hostname : Option String) :
    Except PyError (Option String) :=
  match hostname with
  | some h =>
      Except.ok (get_cfg cfg opt (some ("https://" ++ h ++ "/" ++ dflt)) sect)
  | none =>
      match cfgGet cfg sect "hostname" with
      | Except.error e => Except.error e
      | Except.ok h =>
          Except.ok (get_cfg cfg opt (some ("https://" ++ h ++ "/" ++ dflt)) sect)

/-- `username` property: `self.config.get('user', 'username')` (raises
when absent). -/
def username (cfg : Cfg) : Except PyError String :=
  cfgGet cfg "user" "username"

/-- `password` property: `self.get_cfg('password', section='user')`. -/
def password (cfg : Cfg) : Option String :=
  get_cfg cfg "password" none "user"

/-- `token` property: `self.get_cfg('token', section='user')`. -/
def token (cfg : Cfg) : Option String :=
  get_cfg cfg "token" none "user"

/-- `login_url()`: `self.get_url('loginurl', 'login')`. -/
def login_url (cfg : Cfg) : Except PyError (Option String) :=
  get_url cfg "loginurl" "login" "kattis" none

/-- `contests_url()`: `self.get_url('contestsurl', 'contests')`. -/
def contests_url (cfg : Cfg) : Except PyError (Option String) :=
  get_url cfg "contestsurl" "contests" "kattis" none

/-- `contest_url(contest)`: `f'{self.contests_url()}/{contest}'`. -/
def contest_url (cfg : Cfg) (contest : String) : Except PyError String :=
  match contests_url cfg with
  | Except.error e => Except.error e
  | Except.ok u => Except.ok (pyStr u ++ "/" ++ contest)

/-- `problems_url(contest=None)`:
```
if contest is None:
    return self.get_url('problemsurl', 'problems')
else:
    return f'{self.contest_url(contest)}/problems'
```
(the contest branch is an f-string, hence always a plain string). -/
def problems_url (cfg : Cfg) (contest : Option String) :
    Except PyError (Option String) :=
  match contest with
  | none => get_url cfg "problemsurl" "problems" "kattis" none
  | some c =>
      match contest_url cfg c with
      | Except.error e => Except.error e
      | Except.ok u => Except.ok (some (u ++ "/problems"))

/-- `problem_url(problem, contest=None)`:
`f'{self.problems_url(contest)}/{problem}'`. -/
def problem_url (cfg : Cfg) (problem : String) (contest : Option String) :
    Except PyError String :=
  match problems_url cfg contest with
  | Except.error e => Except.error e
  | Except.ok u => Except.ok (pyStr u ++ "/" ++ problem)

/-- `login_request` property (kattis.py lines 351-361):
```
if self.password is None and self.token is None:
    raise cli.ConfigError('password and token both missing')
data = {'user': self.username, 'script': 'true'}
if self.password is not None:
    data['password'] = self.password
if self.token is not None:
    data['token'] = self.token
return Request('post', url=self.login_url(), data=data, headers=Kattis.HEADERS)
```
Each access constructs a *new* `Request` object, so on success the
session's allocation counter advances and the returned object carries a
fresh id. -/
def login_request (cfg : Cfg) (s : KState) : Except PyError ReqObj × KState :=
  if (password cfg).isNone ∧ (token cfg).isNone then
    (Except.error (PyError.configError "password and token both missing"), s)
  else
    match username cfg with
    | Except.error e => (Except.error e, s)
    | Except.ok u =>
        let data :=
          [("user", u), ("script", "true")]
            ++ (match password cfg with
                | some p => [("password", p)]
                | none => [])
            ++ (match token cfg with
                | some t => [("token", t)]
                | none => [])
        match login_url cfg with
        | Except.error e => (Except.error e, s)
        | Except.ok lurl =>
            (Except.ok
              { id := s.nextId,
                fields :=
                  { method := "post", url := pyStr lurl,
                    headers := Kattis.HEADERS, data := data,
                    params := [], cookies := [] } },
             { s with nextId := s.nextId + 1 })

/-- `login(use_cached=True)` (kattis.py lines 333-343):
```
resp = self.cache.send(self.login_request, use_cached)
if resp.status_code == 403:
    raise Exception(f'403: bad credentials for {self.username}')
elif resp.status_code == 404:
    raise Exception(f'404: incorrect login URL {self.login_url()}')
elif resp.status_code != 200:
    raise Exception(f'login failed with status {resp.status_code}')
else:
    return resp
``` -/
def login (tr : Transport) (cfg : Cfg) (s : KState) (use_cached : Bool) :
    Except PyError Resp × KState :=
  match login_request cfg s with
  | (Except.error e, s') => (Except.error e, s')
  | (Except.ok req, s') =>
      match RequestCache.send tr s'.rc req use_cached with
      | (Except.error e, rc') => (Except.error e, { s' with rc := rc' })
      | (Except.ok resp, rc') =>
          let s2 : KState := { s' with rc := rc' }
          if resp.status = 403 then
            match username cfg with
            | Except.error e => (Except.error e, s2)
            | Except.ok u =>
                (Except.error
                  (PyError.exception ("403: bad credentials for " ++ u)), s2)
          else if resp.status = 404 then
            match login_url cfg with
            | Except.error e => (Except.error e, s2)
            | Except.ok lu =>
                (Except.error
                  (PyError.exception
                    ("404: incorrect login URL " ++ pyStr lu)), s2)
          else if resp.status ≠ 200 then
            (Except.error
              (PyError.exception
                ("login failed with status " ++ toString resp.status)), s2)
          else
            (Except.ok resp, s2)

/-- `is_logged_in()`: `return self.login_request in self.cache`.  The
property access builds a fresh `Request` object first. -/
def is_logged_in (cfg : Cfg) (s : KState) : Except PyError Bool × KState :=
  match login_request cfg s with
  | (Except.error e, s') => (Except.error e, s')
  | (Except.ok req, s') => (Except.ok (RequestCache.contains s'.rc req), s')

/-- `logout()`: `return self.cache.invalidate(self.login_request)`.  The
property access builds a fresh `Request` object first; `invalidate`
returns `None`. -/
def logout (cfg : Cfg) (s : KState) : Except PyError Unit × KState :=
  match login_request cfg s with
  | (Except.error e, s') => (Except.error e, s')
  | (Except.ok req, s') =>
      (Except.ok (), { s' with rc := RequestCache.invalidate s'.rc req })

/-- `login_response` property: `return self.login(use_cached=True)`. -/
def login_response (tr : Transport) (cfg : Cfg) (s : KState) :
    Except PyError Resp × KState :=
  login tr cfg s true

/-- `cookies` property: `return self.login_response.cookies`. -/
def cookies (tr : Transport) (cfg : Cfg) (s : KState) :
    Except PyError (List (String × String)) × KState :=
  match login_response tr cfg s with
  | (Except.error e, s') => (Except.error e, s')
  | (Except.ok resp, s') => (Except.ok resp.cookies, s')

end Kattis

/-! ### Entity model (Contest, Submission, Problem, User) -/

/-- The session back-reference stored in each entity (`self.kattis`);
carries the loaded configuration.  It plays no part in entity equality,
hashing or ordering. -/
structure KattisRef where
  config : Cfg

/-- The four entity classes.  Each constructor is one Python class; the
`isinstance` checks in `__eq__`/`__lt__` compare constructors. -/
inductive Entity where
  | contest (kattis : KattisRef) (id : String)
  | submission (kattis : KattisRef) (id : String)
  | problem (kattis : KattisRef) (name : String)
  | user (kattis : KattisRef) (name : String)

namespace Entity

/-- `__str__`: returns the identifier string. -/
def str : Entity → String
  | contest _ i => i
  | submission _ i => i
  | problem _ n => n
  | user _ n => n

/-- `isinstance(other, type(self))`: same class. -/
def sameClass : Entity → Entity → Bool
  | contest _ _, contest _ _ => true
  | submission _ _, submission _ _ => true
  | problem _ _, problem _ _ => true
  | user _ _, user _ _ => true
  | _, _ => false

/-- `__eq__`: `isinstance(other, C) and str(self) == str(other)`. -/
def eq (a b : Entity) : Bool :=
  sameClass a b && (str a == str b)

/-- `__lt__`: raises `TypeError()` across classes, otherwise compares the
identifier strings. -/
def lt (a b : Entity) : Except PyError Bool :=
  if sameClass a b then Except.ok (decide (str a < str b))
  else Except.error PyError.typeError

/-- `__hash__`: `hash(str(self))` — the argument fed to Python's string
hash, which determines the hash value. -/
def hashArg (a : Entity) : String := str a

end Entity

/-! ### Concrete fixtures used by the theorems below -/

/-- Fields of a sample GET request. -/
def sampleFields : ReqFields :=
  { method := "get", url := "https://x", headers := [], data := [],
    params := [], cookies := [] }

/-- A transport that always answers 200 with a session cookie,
allocating a fresh response object per call. -/
def trOK : Transport :=
  fun _ n => Except.ok { id := n, status := 200, cookies := [("sess", "abc")] }

/-- A transport that always answers 403. -/
def tr403 : Transport :=
  fun _ n => Except.ok { id := n, status := 403, cookies := [] }

/-- A transport that always answers 404. -/
def tr404 : Transport :=
  fun _ n => Except.ok { id := n, status := 404, cookies := [] }

/-- A transport that always answers 500. -/
def tr500 : Transport :=
  fun _ n => Except.ok { id := n, status := 500, cookies := [] }

/-- A transport that succeeds with 200 except on its second invocation
(call index 1), where the connection fails. -/
def trFailAt1 : Transport :=
  fun _ n =>
    if n = 1 then Except.error { msg := "connection refused" }
    else Except.ok { id := n, status := 200, cookies := [] }

/-- A transport whose connection always fails. -/
def trFail : Transport :=
  fun _ _ => Except.error { msg := "connection refused" }

/-- A configuration with username, password and hostname set. -/
def cfgFull : Cfg :=
  [(("user", "username"), "me"), (("user", "password"), "pw"),
   (("kattis", "hostname"), "h")]

/-- A configuration with a username and hostname but neither password
nor token. -/
def cfgNoCreds : Cfg :=
  [(("user", "username"), "me"), (("kattis", "hostname"), "h")]

/-- A configuration with only `hostname = example.com` set. -/
def exCfg : Cfg := [(("kattis", "hostname"), "example.com")]

/-- A configuration with a hostname and a `loginurl` override. -/
def cfgOverride : Cfg :=
  [(("kattis", "loginurl"), "https://x/custom-login"),
   (("kattis", "hostname"), "example.com")]

/-- Fields of the login request that `cfgFull` produces. -/
def loginFieldsFull : ReqFields :=
  { method := "post", url := "https://h/login", headers := Kattis.HEADERS,
    data := [("user", "me"), ("script", "true"), ("password", "pw")],
    params := [], cookies := [] }

/-- Overwriting a dict entry makes the lookup return the new value. -/
theorem dictLookup_dictInsert_self (d : List (Nat × Resp)) (k : Nat) (v : Resp) :
    dictLookup (dictInsert d k v) k = some v := by
  induction d with
  | nil => simp [dictInsert, dictLookup]
  | cons hd tl ih =>
      by_cases hk : hd.1 = k
      · simp [dictInsert, hk, dictLookup]
      · simp [dictInsert, hk, dictLookup, ih]

/-! ### Claim theorems -/

/-- C1 (code bug): `requests.Request` inherits identity-based
`__hash__`/`__eq__`, so two distinct request objects whose method, URL,
headers, body, query parameters and cookies are all structurally equal
are nevertheless distinct cache keys: `send(r1)` followed by
`send(r2, use_cached=True)` performs two network calls and returns two
different response objects, where the claim expects exactly one network
call and the same response object both times. -/
theorem C1_structurally_equal_requests_are_cache_distinct :
    (let r1 : ReqObj := { id := 0, fields := sampleFields }
     let r2 : ReqObj := { id := 1, fields := sampleFields }
     let p1 := RequestCache.send trOK RCState.init r1 true
     let p2 := RequestCache.send trOK p1.2 r2 true
     r1.fields = r2.fields ∧ r1 ≠ r2 ∧
     p2.2.calls = 2 ∧ p1.1 ≠ p2.1) := by
  decide

/-- C2 (code bug): `login_request` is a property that constructs a fresh
`Request` object on every access, and `requests.Request` keys compare by
identity, so after a successful `login()` (HTTP 200) the code's
`is_logged_in()` still returns `False`, and every `cookies` access
performs a new network login (the call counter grows by one per access),
where the claim expects `is_logged_in()` to be true and at most one
network call across repeated cookie accesses. -/
theorem C2_login_state_never_observed :
    (let p := Kattis.login trOK cfgFull KState.init true
     let q := Kattis.is_logged_in cfgFull p.2
     let c1 := Kattis.cookies trOK cfgFull q.2
     let c2 := Kattis.cookies trOK cfgFull c1.2
     p.1 = Except.ok { id := 0, status := 200, cookies := [("sess", "abc")] } ∧
     q.1 = Except.ok false ∧
     p.2.rc.calls = 1 ∧ c1.2.rc.calls = 2 ∧ c2.2.rc.calls = 3) := by
  decide

/-- C5: if none of the user-supplied paths is successfully read,
`_read_config` raises `ConfigError`, even when the system-wide default
configuration file exists and was read first. -/
theorem C5_user_file_required (defaultFile : Option Cfg)
    (userFiles : List (Option Cfg)) (h : ∀ f ∈ userFiles, f = none) :
    readConfig defaultFile userFiles = Except.error (PyError.configError "") := by
  have hempty : userFiles.filterMap id = [] := by
    induction userFiles with
    | nil => rfl
    | cons hd tl ih =>
        have hhd : hd = none := h hd (List.mem_cons_self hd tl)
        have htl : ∀ f ∈ tl, f = none := fun f hf => h f (List.mem_cons_of_mem hd hf)
        simp [List.filterMap_cons, hhd, ih htl]
  simp [readConfig, hempty]

/-- C5 witness: with the system-wide default file present and readable
but both user paths unreadable, loading still fails. -/
theorem C5_user_file_required_witness :
    (∀ f ∈ ([none, none] : List (Option Cfg)), f = none) ∧
    readConfig (some exCfg) [none, none] = Except.error (PyError.configError "") :=
  ⟨by decide, C5_user_file_required (some exCfg) [none, none] (by decide)⟩

/-- C6: with neither `user.password` nor `user.token` configured, the
`login_request` property raises `ConfigError('password and token both
missing')`, and `login()` raises the same error with the session state
untouched — in particular the network-call counter is unchanged, so the
transport was never invoked. -/
theorem C6_missing_credentials_fail_before_network (tr : Transport)
    (cfg : Cfg) (s : KState) (uc : Bool)
    (hp : Kattis.password cfg = none) (ht : Kattis.token cfg = none) :
    Kattis.login_request cfg s =
      (Except.error (PyError.configError "password and token both missing"), s) ∧
    Kattis.login tr cfg s uc =
      (Except.error (PyError.configError "password and token both missing"), s) := by
  have h1 : Kattis.login_request cfg s =
      (Except.error (PyError.configError "password and token both missing"), s) := by
    simp [Kattis.login_request, hp, ht]
  exact ⟨h1, by simp [Kattis.login, h1]⟩

/-- C6 witness: the concrete credential-free configuration raises
before any network call. -/
theorem C6_missing_credentials_fail_before_network_witness :
    Kattis.password cfgNoCreds = none ∧ Kattis.token cfgNoCreds = none ∧
    (Kattis.login_request cfgNoCreds KState.init =
      (Except.error (PyError.configError "password and token both missing"),
       KState.init) ∧
     Kattis.login trOK cfgNoCreds KState.init true =
      (Except.error (PyError.configError "password and token both missing"),
       KState.init)) :=
  ⟨by decide, by decide,
   C6_missing_credentials_fail_before_network trOK cfgNoCreds KState.init true
     (by decide) (by decide)⟩

/-- C9: `RequestCache` (kattis.py) and `ResponseCache`
(response_cache.py) are behaviourally equivalent: from any (in
particular the empty) cache state and for the same transport
collaborator — `requests.session()` is defined as `return Session()` —
every sequence of contains/invalidate/send operations produces identical
results and identical final cache states. -/
theorem C9_request_cache_equals_response_cache (tr : Transport)
    (ops : List CacheOp) (s : RCState) :
    runRequestCache tr ops s = runResponseCache tr ops s := by
  induction ops generalizing s with
  | nil => rfl
  | cons op ops ih =>
      cases op with
      | contains req =>
          simp [runRequestCache, runResponseCache, RequestCache.contains,
                ResponseCache.contains, ih]
      | invalidate req =>
          simp [runRequestCache, runResponseCache, RequestCache.invalidate,
                ResponseCache.invalidate, ih]
      | send req uc =>
          have hsend : RequestCache.send tr s req uc = ResponseCache.send tr s req uc := rfl
          simp [runRequestCache, runResponseCache, hsend, ih]

/-- C10: with neither password nor token configured, `logout()`
evaluates the `login_request` property in order to invalidate it, so it
raises `ConfigError` instead of completing as a no-op invalidation. -/
theorem C10_logout_raises_without_credentials (cfg : Cfg) (s : KState)
    (hp : Kattis.password cfg = none) (ht : Kattis.token cfg = none) :
    Kattis.logout cfg s =
      (Except.error (PyError.configError "password and token both missing"), s) := by
  simp [Kattis.logout, Kattis.login_request, hp, ht]

/-- C10 witness: logout on the concrete credential-free configuration
raises `ConfigError`. -/
theorem C10_logout_raises_without_credentials_witness :
    Kattis.password cfgNoCreds = none ∧ Kattis.token cfgNoCreds = none ∧
    Kattis.logout cfgNoCreds KState.init =
      (Except.error (PyError.configError "password and token both missing"),
       KState.init) :=
  ⟨by decide, by decide,
   C10_logout_raises_without_credentials cfgNoCreds KState.init
     (by decide) (by decide)⟩

/-- C3 counterexample: the three login failure statuses (403, 404, any
other non-200) all raise the same generic Python `Exception`
constructor, distinguished only by their message strings — the code
defines no AuthenticationError, EndpointError or LoginError types, so
the outcomes are not distinguishable error types. -/
theorem C3_login_failures_share_one_exception_type :
    (Kattis.login tr403 cfgFull KState.init true).1 =
      Except.error (PyError.exception "403: bad credentials for me") ∧
    (Kattis.login tr404 cfgFull KState.init true).1 =
      Except.error (PyError.exception "404: incorrect login URL https://h/login") ∧
    (Kattis.login tr500 cfgFull KState.init true).1 =
      Except.error (PyError.exception "login failed with status 500") := by
  decide

/-- C3 (amended): `login()` classifies the response status of the login
request: 403 raises an error naming the configured user, 404 raises an
error naming the login URL, any other non-200 status raises an error
carrying the numeric status, and 200 returns the response — but all
three failures are instances of the one generic `Exception` type,
distinguishable only by message. -/
theorem C3_login_status_classification (tr : Transport) (cfg : Cfg)
    (s s' : KState) (uc : Bool) (u : String) (lurl : Option String)
    (req : ReqObj) (resp : Resp) (rc' : RCState)
    (hu : Kattis.username cfg = Except.ok u)
    (hl : Kattis.login_url cfg = Except.ok lurl)
    (hreq : Kattis.login_request cfg s = (Except.ok req, s'))
    (hsend : RequestCache.send tr s'.rc req uc = (Except.ok resp, rc')) :
    Kattis.login tr cfg s uc =
      (if resp.status = 403 then
        Except.error (PyError.exception ("403: bad credentials for " ++ u))
      else if resp.status = 404 then
        Except.error (PyError.exception ("404: incorrect login URL " ++ pyStr lurl))
      else if resp.status ≠ 200 then
        Except.error
          (PyError.exception ("login failed with status " ++ toString resp.status))
      else Except.ok resp,
      { s' with rc := rc' }) := by
  by_cases h403 : resp.status = 403
  · simp [Kattis.login, hreq, hsend, hu, h403]
  · by_cases h404 : resp.status = 404
    · simp [Kattis.login, hreq, hsend, hl, h403, h404]
    · by_cases h200 : resp.status = 200
      · simp [Kattis.login, hreq, hsend, h403, h404, h200]
      · simp [Kattis.login, hreq, hsend, h403, h404, h200]

/-- C3 witness: the classification theorem applied to the concrete
403-answering transport on the full configuration. -/
theorem C3_login_status_classification_witness :
    Kattis.username cfgFull = Except.ok "me" ∧
    Kattis.login_url cfgFull = Except.ok (some "https://h/login") ∧
    Kattis.login_request cfgFull KState.init =
      (Except.ok { id := 0, fields := loginFieldsFull },
       { rc := RCState.init, nextId := 1 }) ∧
    RequestCache.send tr403 RCState.init { id := 0, fields := loginFieldsFull } true =
      (Except.ok { id := 0, status := 403, cookies := [] },
       { cache := [(0, { id := 0, status := 403, cookies := [] })], calls := 1 }) ∧
    Kattis.login tr403 cfgFull KState.init true =
      (Except.error (PyError.exception "403: bad credentials for me"),
       { rc := { cache := [(0, { id := 0, status := 403, cookies := [] })], calls := 1 },
         nextId := 1 }) :=
  ⟨by decide, by decide, by decide, by decide,
   C3_login_status_classification tr403 cfgFull KState.init
     { rc := RCState.init, nextId := 1 } true "me" (some "https://h/login")
     { id := 0, fields := loginFieldsFull }
     { id := 0, status := 403, cookies := [] }
     { cache := [(0, { id := 0, status := 403, cookies := [] })], calls := 1 }
     (by decide) (by decide) (by decide) (by decide)⟩

/-- C4 counterexample: when the request already has a cached entry and a
bypass send (`use_cached=False`) fails with a transport error, the old
entry survives, so the subsequent `send(r, use_cached=True)` returns the
old cached response without performing any network call — refuting the
claim's "a subsequent send(r, use_cached=true) performs a fresh network
call" for this request. -/
theorem C4_cached_entry_survives_failed_bypass :
    (let r : ReqObj := { id := 0, fields := sampleFields }
     let p1 := RequestCache.send trFailAt1 RCState.init r true
     let p2 := RequestCache.send trFailAt1 p1.2 r false
     let p3 := RequestCache.send trFailAt1 p2.2 r true
     p2.1 = Except.error (PyError.transport { msg := "connection refused" }) ∧
     p2.2.cache = p1.2.cache ∧
     p3.1 = p1.1 ∧
     p3.2.calls = p2.2.calls) := by
  decide

/-- C4 (amended): when the transport raises during `send`, the error
propagates unchanged and the cache mapping is left exactly as it was (no
entry stored or overwritten); if no entry existed for the request, a
subsequent `send(r, use_cached=True)` performs a fresh network call
rather than replaying the failure, while if an entry already existed
(only possible when `use_cached=False` forced the failed refresh), the
subsequent cached send returns that prior entry without a network
call. -/
theorem C4_transport_error_leaves_cache_unchanged (tr : Transport)
    (s : RCState) (req : ReqObj) (uc : Bool) (e : TransportError)
    (hbranch : uc = false ∨ dictMem s.cache req.id = false)
    (herr : tr req.fields s.calls = Except.error e) :
    RequestCache.send tr s req uc =
      (Except.error (PyError.transport e), { s with calls := s.calls + 1 }) ∧
    (dictMem s.cache req.id = false →
      ∀ resp, tr req.fields (s.calls + 1) = Except.ok resp →
        RequestCache.send tr { s with calls := s.calls + 1 } req true =
          (Except.ok resp,
           { cache := dictInsert s.cache req.id resp, calls := s.calls + 2 })) ∧
    (dictMem s.cache req.id = true →
      RequestCache.send tr { s with calls := s.calls + 1 } req true =
        (dictSubscript s.cache req.id, { s with calls := s.calls + 1 })) := by
  refine ⟨?_, ?_, ?_⟩
  · simp only [RequestCache.send, if_pos hbranch, herr]
  · intro hnot resp hok
    simp only [RequestCache.send]
    rw [if_pos (Or.inr hnot)]
    simp only [hok]
    simp [dictSubscript, dictLookup_dictInsert_self]
  · intro hmem
    simp only [RequestCache.send]
    rw [if_neg (by simp [hmem])]

/-- C4 witness: a transport that always fails, applied to a fresh cache
and a fresh request. -/
theorem C4_transport_error_leaves_cache_unchanged_witness :
    (true = false ∨ dictMem RCState.init.cache 0 = false) ∧
    trFail sampleFields RCState.init.calls =
      Except.error { msg := "connection refused" } ∧
    (RequestCache.send trFail RCState.init { id := 0, fields := sampleFields } true =
      (Except.error (PyError.transport { msg := "connection refused" }),
       { RCState.init with calls := RCState.init.calls + 1 }) ∧
     (dictMem RCState.init.cache 0 = false →
       ∀ resp, trFail sampleFields (RCState.init.calls + 1) = Except.ok resp →
         RequestCache.send trFail { RCState.init with calls := RCState.init.calls + 1 }
             { id := 0, fields := sampleFields } true =
           (Except.ok resp,
            { cache := dictInsert RCState.init.cache 0 resp,
              calls := RCState.init.calls + 2 })) ∧
     (dictMem RCState.init.cache 0 = true →
       RequestCache.send trFail { RCState.init with calls := RCState.init.calls + 1 }
           { id := 0, fields := sampleFields } true =
         (dictSubscript RCState.init.cache 0,
          { RCState.init with calls := RCState.init.calls + 1 }))) :=
  ⟨Or.inr (by decide), by decide,
   C4_transport_error_leaves_cache_unchanged trFail RCState.init
     { id := 0, fields := sampleFields } true { msg := "connection refused" }
     (Or.inr (by decide)) (by decide)⟩

/-- C7: a configured option key replaces the synthesized default URL
entirely, and absent an override `get_url` returns
`https://` + hostname + `/` + the default suffix; with only
`hostname = example.com` configured, `problems_url()` is
`https://example.com/problems` and `problem_url("2sum")` is
`https://example.com/problems/2sum`. -/
theorem C7_url_override_and_default_synthesis (cfg : Cfg)
    (opt dflt sect h v : String)
    (hh : cfgLookup cfg sect "hostname" = some h) :
    (cfgLookup cfg sect opt = some v →
      Kattis.get_url cfg opt dflt sect none = Except.ok (some v)) ∧
    (cfgLookup cfg sect opt = none →
      Kattis.get_url cfg opt dflt sect none =
        Except.ok (some ("https://" ++ h ++ "/" ++ dflt))) ∧
    Kattis.problems_url exCfg none =
      Except.ok (some "https://example.com/problems") ∧
    Kattis.problem_url exCfg "2sum" none =
      Except.ok "https://example.com/problems/2sum" := by
  refine ⟨?_, ?_, by decide, by decide⟩
  · intro hov
    simp [Kattis.get_url, cfgGet, hh, Kattis.get_cfg, cfgHasOption, hov]
  · intro hov
    simp [Kattis.get_url, cfgGet, hh, Kattis.get_cfg, cfgHasOption, hov]

/-- C7 witness: the override configuration resolves `loginurl` to the
configured value, and the hostname-only configuration synthesizes the
default problem URLs. -/
theorem C7_url_override_and_default_synthesis_witness :
    cfgLookup cfgOverride "kattis" "hostname" = some "example.com" ∧
    ((cfgLookup cfgOverride "kattis" "loginurl" = some "https://x/custom-login" →
       Kattis.get_url cfgOverride "loginurl" "login" "kattis" none =
         Except.ok (some "https://x/custom-login")) ∧
     (cfgLookup cfgOverride "kattis" "loginurl" = none →
       Kattis.get_url cfgOverride "loginurl" "login" "kattis" none =
         Except.ok (some "https://example.com/login")) ∧
     Kattis.problems_url exCfg none =
       Except.ok (some "https://example.com/problems") ∧
     Kattis.problem_url exCfg "2sum" none =
       Except.ok "https://example.com/problems/2sum") :=
  ⟨by decide,
   C7_url_override_and_default_synthesis cfgOverride "loginurl" "login" "kattis"
     "example.com" "https://x/custom-login" (by decide)⟩

/-- C8: entity equality, hash input and ordering are determined purely
by the identifier string within one entity class (the `kattis`
back-reference plays no part): `Problem("a") < Problem("b")` holds,
`Problem("a") == User("a")` is false although the identifiers match, and
an ordering comparison between entities of different classes raises
`TypeError`. -/
theorem C8_entity_identifier_semantics (x y a b : Entity) (k1 k2 : KattisRef)
    (hsame : Entity.sameClass x y = true)
    (hdiff : Entity.sameClass a b = false) :
    Entity.lt (Entity.problem k1 "a") (Entity.problem k2 "b") = Except.ok true ∧
    Entity.eq (Entity.problem k1 "a") (Entity.user k2 "a") = false ∧
    Entity.eq x y = (Entity.str x == Entity.str y) ∧
    Entity.lt x y = Except.ok (decide (Entity.str x < Entity.str y)) ∧
    Entity.hashArg x = Entity.str x ∧
    Entity.eq a b = false ∧
    Entity.lt a b = Except.error PyError.typeError := by
  refine ⟨?_, rfl, ?_, ?_, rfl, ?_, ?_⟩
  · simp [Entity.lt, Entity.sameClass, Entity.str]
    decide
  · simp [Entity.eq, hsame]
  · simp [Entity.lt, hsame]
  · simp [Entity.eq, hdiff]
  · simp [Entity.lt, hdiff]

/-- C8 witness: the identifier semantics at concrete entities, with two
same-class problems and a problem/user pair of different classes. -/
theorem C8_entity_identifier_semantics_witness :
    Entity.sameClass (Entity.problem { config := [] } "p")
        (Entity.problem { config := [] } "q") = true ∧
    Entity.sameClass (Entity.problem { config := [] } "a")
        (Entity.user { config := [] } "b") = false ∧
    (Entity.lt (Entity.problem { config := [] } "a")
        (Entity.problem { config := [] } "b") = Except.ok true ∧
     Entity.eq (Entity.problem { config := [] } "a")
        (Entity.user { config := [] } "a") = false ∧
     Entity.eq (Entity.problem { config := [] } "p")
        (Entity.problem { config := [] } "q") =
       (Entity.str (Entity.problem { config := [] } "p") ==
        Entity.str (Entity.problem { config := [] } "q")) ∧
     Entity.lt (Entity.problem { config := [] } "p")
        (Entity.problem { config := [] } "q") =
       Except.ok (decide (Entity.str (Entity.problem { config := [] } "p") <
                          Entity.str (Entity.problem { config := [] } "q"))) ∧
     Entity.hashArg (Entity.problem { config := [] } "p") =
       Entity.str (Entity.problem { config := [] } "p") ∧
     Entity.eq (Entity.problem { config := [] } "a")
        (Entity.user { config := [] } "b") = false ∧
     Entity.lt (Entity.problem { config := [] } "a")
        (Entity.user { config := [] } "b") = Except.error PyError.typeError) :=
  ⟨rfl, rfl,
   C8_entity_identifier_semantics
     (Entity.problem { config := [] } "p") (Entity.problem { config := [] } "q")
     (Entity.problem { config := [] } "a") (Entity.user { config := [] } "b")
     { config := [] } { config := [] } rfl rfl⟩
